import Mathlib

/-!
Shallow embedding of the YouTube-downloader bot (`bot.py`) and proofs about
its per-user orchestration logic: link classification, playlist detection,
session state, format negotiation, playlist/search resolution and delivery
with fallback.  Python strings are modelled as Lean `String`
(code-point lists), Python dictionaries holding the per-user session as a
two-field record of `Option`s, and the external extraction service and the
chat transport as explicit oracle parameters.
-/

/-! ### Basic Python string operations, modelled over code-point lists -/

/-- Python substring containment `sub in hay`, on code-point lists:
true iff `pat` occurs contiguously inside the list. -/
def listHasInfix (pat : List Char) : List Char → Bool
  | [] => pat.isEmpty
  | c :: cs => pat.isPrefixOf (c :: cs) || listHasInfix pat cs

/-- Python `sub in hay` on strings. -/
def strContains (hay sub : String) : Bool := listHasInfix sub.data hay.data

/-- Python `s.startswith(p)`. -/
def strStartsWith (s p : String) : Bool := p.data.isPrefixOf s.data

/-- Python `str.replace(pat, rep)` (leftmost, non-overlapping, all
occurrences), with explicit fuel so that it is structurally recursive;
the fuel `l.length` is always sufficient because every step consumes at
least one character of the input. -/
def replaceAllFuel (rep : List Char) : Nat → List Char → List Char → List Char
  | 0, l, _ => l
  | _ + 1, [], _ => []
  | n + 1, c :: cs, pat =>
    if pat.isPrefixOf (c :: cs) && !pat.isEmpty then
      rep ++ replaceAllFuel rep n ((c :: cs).drop pat.length) pat
    else
      c :: replaceAllFuel rep n cs pat

/-- Python `s.replace(pat, rep)` on strings (for the nonempty patterns the
bot uses). -/
def pyReplace (s pat rep : String) : String :=
  String.mk (replaceAllFuel rep.data s.data.length s.data pat.data)

/-- Python `s.strip()`: drop whitespace from both ends. -/
def pyStrip (l : List Char) : List Char :=
  ((l.dropWhile Char.isWhitespace).reverse.dropWhile Char.isWhitespace).reverse

/-- Python `s.strip()` on strings. -/
def pyStripStr (s : String) : String := String.mk (pyStrip s.data)

/-- Python slicing `s[:n]` (by code points). -/
def pyTake (s : String) (n : Nat) : String := String.mk (s.data.take n)

/-! ### Link Classifier (`is_youtube_url`, bot.py lines 49-59)

The two regular expressions of `is_youtube_url` are embedded as explicit
nondeterministic prefix matchers: a pattern matches (under `re.match`,
i.e. anchored at the start, prefix match) iff some decomposition of the
input into the pattern's groups exists.  Each matcher below enumerates all
such decompositions, which coincides with the backtracking semantics of
Python's `re` for match existence. -/

/-- Characters allowed in the 11-character identifier group
`[^&=%\?]{11}`: anything except `&`, `=`, `%`, `?`. -/
def validIdChar (c : Char) : Bool :=
  !(c == '&') && !(c == '=') && !(c == '%') && !(c == '?')

/-- The final group `([^&=%\?]{11})`: the remaining input starts with 11
characters outside the delimiter set (the rest of the input is
unconstrained, as `re.match` only requires a prefix match). -/
def has11Valid (l : List Char) : Bool :=
  decide (11 ≤ l.length) && (l.take 11).all validIdChar

/-- All ways to consume one of the literal alternatives `opts` from the
start of each candidate suffix (an empty string in `opts` encodes an
optional group). -/
def multiStrip (opts : List String) (ls : List (List Char)) : List (List Char) :=
  ls.flatMap fun l =>
    opts.filterMap fun o =>
      if o.data.isPrefixOf l then some (l.drop o.data.length) else none

/-- All ways to consume the alternative `.+\?v=` from the start of `l`:
one or more non-newline characters followed by the literal `?v=`. -/
def dotPlusQvSuffixes (l : List Char) : List (List Char) :=
  (List.range l.length).filterMap fun i =>
    if decide (1 ≤ i) && (l.take i).all (fun c => !(c == '\n'))
        && "?v=".data.isPrefixOf (l.drop i) then
      some (l.drop (i + 3))
    else none

/-- All ways to consume the optional group
`(watch\?v=|embed/|v/|shorts/|playlist\?list=|.+\?v=)?`. -/
def group5Suffixes (l : List Char) : List (List Char) :=
  (["", "watch?v=", "embed/", "v/", "shorts/", "playlist?list="].filterMap
    fun o => if o.data.isPrefixOf l then some (l.drop o.data.length) else none)
  ++ dotPlusQvSuffixes l

/-- The six literal spellings of `(youtube|youtu|youtube-nocookie)\.(com|be)/`. -/
def hostOpts : List String :=
  ["youtube.com/", "youtube.be/", "youtu.com/", "youtu.be/",
   "youtube-nocookie.com/", "youtube-nocookie.be/"]

/-- All suffixes remaining after matching the first five groups of
pattern 1, `(https?://)?(www\.)?(youtube|youtu|youtube-nocookie)\.(com|be)/(...)?`. -/
def pat1Suffixes (s : List Char) : List (List Char) :=
  (multiStrip hostOpts
    (multiStrip ["", "www."]
      (multiStrip ["", "http://", "https://"] [s]))).flatMap group5Suffixes

/-- Pattern 1 of `is_youtube_url` matches (anchored at the start). -/
def matchPat1 (s : List Char) : Bool := (pat1Suffixes s).any has11Valid

/-- All suffixes remaining after matching `(https?://)?(www\.)?youtu\.be/`. -/
def pat2Suffixes (s : List Char) : List (List Char) :=
  multiStrip ["youtu.be/"]
    (multiStrip ["", "www."]
      (multiStrip ["", "http://", "https://"] [s]))

/-- Pattern 2 of `is_youtube_url` matches (anchored at the start). -/
def matchPat2 (s : List Char) : Bool := (pat2Suffixes s).any has11Valid

/-- `is_youtube_url(url)` (bot.py lines 49-59): the URL is accepted iff one
of the two patterns matches at the start of the string. -/
def is_youtube_url (url : String) : Bool :=
  matchPat1 url.data || matchPat2 url.data

/-- `is_playlist(url)` (bot.py lines 62-63): `'list=' in url`. -/
def is_playlist (url : String) : Bool := strContains url "list="

example : is_youtube_url "https://www.youtube.com/watch?v=dQw4w9WgXcQ" = true := by decide
example : is_youtube_url "https://youtu.be/dQw4w9WgXcQ" = true := by decide
example : is_youtube_url "https://www.youtube.com/watch?v=abc" = false := by decide
example : is_youtube_url "hello" = false := by decide
example : is_playlist "https://www.youtube.com/watch?v=dQw4w9WgXcQ&list=PL9" = true := by decide

/-! ### Data model

`Metadata` mirrors the dictionary built by `get_video_info`
(bot.py lines 79-86).  The extra field `src_url` is a provenance ghost
recording which URL the extractor was called on; the honesty condition
`FetchOk` below states that an extraction oracle only returns metadata
whose provenance is the queried URL. -/

structure Metadata where
  title : String
  duration : Nat
  thumbnail : String
  uploader : String
  view_count : Nat
  id : String
  src_url : String
deriving DecidableEq

/-- The per-user session dictionary `context.user_data`: the two keys the
bot reads and writes are `current_url` and `video_info`; a missing key is
`none`. -/
structure UserData where
  current_url : Option String
  video_info : Option Metadata
deriving DecidableEq

/-- A fresh `user_data` dictionary: both keys absent. -/
def initSession : UserData := ⟨none, none⟩

/-- The dictionary returned by `get_download_info` (bot.py lines 122-127):
a direct stream URL plus title, container extension and approximate size. -/
structure DownloadInfo where
  url : String
  title : String
  ext : String
  filesize : Nat
deriving DecidableEq

/-- An inline-keyboard button action: a direct open-URL button or a
callback button carrying a token. -/
inductive BtnAct where
  | openUrl (u : String)
  | callback (data : String)
deriving DecidableEq

/-- An inline-keyboard button: label plus action. -/
structure Btn where
  label : String
  act : BtnAct
deriving DecidableEq

/-- Observable transport actions emitted while handling one callback
event: answering the callback, editing the status message (with an
optional keyboard), attempting an inline media send, or sending a fresh
reply message with a keyboard. -/
inductive BotAction where
  | answerCallback
  | editMessage (text : String) (buttons : List Btn)
  | inlineSendAudio (ref : String) (title : String) (performer : String)
  | inlineSendVideo (ref : String) (caption : String)
  | replyMessage (text : String) (buttons : List Btn)
deriving DecidableEq

/-! ### Format Negotiator (bot.py lines 574-584) -/

/-- `format_type = 'audio' if 'audio' in data else 'video'`. -/
def format_type (data : String) : String :=
  if strContains data "audio" then "audio" else "video"

/-- The quality tier chosen from the callback token by the `elif` chain of
substring tests (bot.py lines 575-584). -/
def quality_of (data : String) : String :=
  if strContains data "video_720" then "720"
  else if strContains data "video_480" then "480"
  else if strContains data "video_360" then "360"
  else if strContains data "video_144" then "144"
  else "best"

example : format_type "fmt_audio" = "audio" := by decide
example : format_type "fmt_video_720" = "video" := by decide
example : quality_of "fmt_video_720" = "720" := by decide
example : quality_of "fmt_video_best" = "best" := by decide
example : quality_of "720480" = "best" := by decide

/-! ### `format_size` (bot.py lines 193-200)

Integer approximation of the source's floating-point rendering: the unit
ladder (B → KB → MB → GB → TB at factors of 1024) is kept; the one
fractional digit of the rendered number is elided.  No claim inspects the
rendered size text. -/

def format_size (n : Nat) : String :=
  if n == 0 then "Unknown"
  else if n < 1024 then toString n ++ " B"
  else if n < 1024 * 1024 then toString (n / 1024) ++ " KB"
  else if n < 1024 * 1024 * 1024 then toString (n / (1024 * 1024)) ++ " MB"
  else if n < 1024 * 1024 * 1024 * 1024 then toString (n / (1024 * 1024 * 1024)) ++ " GB"
  else toString (n / (1024 * 1024 * 1024 * 1024)) ++ " TB"

/-! ### Conversation Controller: text-message routing
(`handle_youtube_link`, bot.py lines 377-407) -/

/-- Character class of the URL-extraction regex used on forwarded
messages (bot.py line 386):
`[a-zA-Z] | [0-9] | [$-_@.&+] | [!*\\(\\),] | %[0-9a-fA-F]{2}`.
The `$`-to-`_` range already contains `%` and both hex ranges, so the
percent-escape alternative adds no further characters. -/
def urlChar (c : Char) : Bool :=
  c.isAlpha || c.isDigit || ('$' ≤ c && c ≤ '_') ||
  c == '!' || c == '*' || c == '\\' || c == '(' || c == ')' || c == ','

/-- Try to match `http[s]?://` followed by one or more `urlChar`s at the
start of `l`; returns the matched URL. -/
def tryMatchUrl (l : List Char) : Option (List Char) :=
  if "https://".data.isPrefixOf l then
    let body := (l.drop 8).takeWhile urlChar
    if body.isEmpty then none else some ("https://".data ++ body)
  else if "http://".data.isPrefixOf l then
    let body := (l.drop 7).takeWhile urlChar
    if body.isEmpty then none else some ("http://".data ++ body)
  else none

/-- The first URL found by `re.findall(...)[0]` on the forwarded body:
leftmost match of the URL regex. -/
def findFirstUrl : List Char → Option (List Char)
  | [] => none
  | c :: cs =>
    match tryMatchUrl (c :: cs) with
    | some u => some u
    | none => findFirstUrl cs

/-- The routing outcome of `handle_youtube_link`:
`ignored` (non-link text, bot.py line 399: a silent `return`),
`forwardNoLink` (forwarded message with no URL, line 391: an error reply),
`playlist url` (line 406) or `video url` (the single-video flow). -/
inductive RouteResult where
  | ignored
  | forwardNoLink
  | playlist (url : String)
  | video (url : String)
deriving DecidableEq

/-- URL routing of `handle_youtube_link` after the URL has been chosen
(bot.py lines 397-407). -/
def routeUrl (url : String) : RouteResult :=
  if !(is_youtube_url url) then .ignored
  else if is_playlist url then .playlist url
  else .video url

/-- Full routing of a text event (bot.py lines 381-407): a forwarded
message first extracts the first embedded URL from its body, a typed
message is stripped of surrounding whitespace. -/
def handle_text (forwarded : Bool) (text : String) : RouteResult :=
  if forwarded then
    match findFirstUrl text.data with
    | none => .forwardNoLink
    | some u => routeUrl (String.mk u)
  else routeUrl (pyStripStr text)

/-- The immediate reply the routing code itself sends: nothing for
ignored text, the explicit error for a forwarded message without a URL,
and the initial status message of the playlist / video flows. -/
def routeReply : RouteResult → List String
  | .ignored => []
  | .forwardNoLink => ["❌ No YouTube link found in forwarded message!"]
  | .playlist _ => ["⏳ **Loading playlist...**"]
  | .video _ => ["⏳ **Processing your request...**"]

/-- Session effect of one text event (bot.py lines 409-419): only the
single-video flow with a successful metadata resolution writes the
session, storing the URL and the metadata fetched from it; every other
route leaves `user_data` untouched. -/
def handle_text_state (forwarded : Bool) (text : String)
    (fetch : String → Option Metadata) (s : UserData) : UserData :=
  match handle_text forwarded text with
  | .video url =>
    match fetch url with
    | none => s
    | some info => { s with current_url := some url, video_info := some info }
  | _ => s

example : handle_text false "  https://youtu.be/dQw4w9WgXcQ " =
    .video "https://youtu.be/dQw4w9WgXcQ" := by decide
example : handle_text true "hello" = .forwardNoLink := by decide
example : handle_text false "hello" = .ignored := by decide
example : handle_text true "see http://example.com now" = .ignored := by decide

/-! ### Message texts of the callback handler (bot.py lines 505-673) -/

/-- bot.py line 564. -/
def sessionExpiredMsg : String := "❌ Session expired. Send link again!"

/-- bot.py lines 569-572. -/
def preparingMsg : String := "⏳ **Preparing download...**\n\n_This may take 5-15 seconds_"

/-- bot.py line 589. -/
def resolveFailedMsg : String := "❌ Failed to get download link. Try another quality!"

/-- bot.py line 532. -/
def loadingInfoMsg : String := "⏳ **Loading video info...**"

/-- bot.py line 536. -/
def fetchFailMsg : String := "❌ Failed to fetch video info!"

/-- The `caption` f-string of bot.py lines 600-608. -/
def downloadReadyCaption (femoji title qtext stext : String) : String :=
  "\n✅ **Download Ready!**\n\n" ++ femoji ++ " **" ++ title ++
  "**\n📊 **Format:** " ++ qtext ++ "\n💾 **Size:** ~" ++ stext ++
  "\n\n⬇️ **Sending to Telegram...**\n"

/-- The `success_msg` f-string of bot.py lines 637-644. -/
def successMsg (femoji qtext : String) : String :=
  "\n✅ **File sent successfully!**\n\n📥 Check above for " ++ femoji ++ " **" ++
  qtext ++ "** file!\n\n**Alternative:** Browser download link below\n⚠️ **Expires in 6 hours!**\n"

/-- The `error_msg` f-string of bot.py lines 658-666. -/
def tooLargeMsg (femoji title stext : String) : String :=
  "\n⚠️ **File too large for Telegram!**\n\n" ++ femoji ++ " **" ++ title ++
  "**\n💾 **Size:** " ++ stext ++ "\n\nUse browser link below:\n⏰ **Expires in 6 hours!**\n"

/-- The `dl_` branch caption of bot.py lines 551-555. -/
def chooseFormatCaption (title : String) : String :=
  "📺 **" ++ title ++ "**\n\nChoose format:"

/-- The format-selection keyboard of the `dl_` branch
(bot.py lines 541-548), rows flattened. -/
def dlFormatKeyboard : List Btn :=
  [⟨"🎬 Video - Best", .callback "fmt_video_best"⟩,
   ⟨"🎬 720p", .callback "fmt_video_720"⟩,
   ⟨"🎬 480p", .callback "fmt_video_480"⟩,
   ⟨"🎬 360p", .callback "fmt_video_360"⟩,
   ⟨"🎬 144p", .callback "fmt_video_144"⟩,
   ⟨"🎵 Audio (MP3)", .callback "fmt_audio"⟩]

/-- Python falsiness of the `current_url` lookup (`if not url`): a missing
key and an empty string are both falsy. -/
def pyFalsy : Option String → Bool
  | none => true
  | some s => s.data.isEmpty

/-! ### Delivery Orchestrator: the `fmt_` branch (bot.py lines 559-668)

`resolve` is the `get_download_info` oracle (URL, format type, quality ↦
stream reference or failure) and `sendOk` the outcome of the inline
transport send (`reply_audio` / `reply_video`): `false` means the
transport raised a `TelegramError`, which the handler catches and
answers with the browser-link fallback reply. -/

def fmt_branch (data : String) (s : UserData)
    (resolve : String → String → String → Option DownloadInfo)
    (sendOk : Bool) : List BotAction :=
  if pyFalsy s.current_url then [.editMessage sessionExpiredMsg []]
  else
    let url := s.current_url.getD ""
    match resolve url (format_type data) (quality_of data) with
    | none => [.editMessage preparingMsg [], .editMessage resolveFailedMsg []]
    | some di =>
      let femoji := if format_type data == "audio" then "🎵" else "🎬"
      let qtext := if format_type data == "audio" then "MP3 Audio"
                   else if !(quality_of data == "best") then quality_of data ++ "p"
                   else "Best Quality"
      let stext := if !(di.filesize == 0) then format_size di.filesize else "Unknown"
      [.editMessage preparingMsg [],
       .editMessage (downloadReadyCaption femoji (pyTake di.title 80) qtext stext) []] ++
      (if format_type data == "audio" then
        [.inlineSendAudio di.url di.title ((s.video_info.map Metadata.uploader).getD "Unknown")]
       else
        [.inlineSendVideo di.url ("🎬 " ++ di.title)]) ++
      (if sendOk then
        [.replyMessage (successMsg femoji qtext)
          [⟨"🌐 Open in Browser", .openUrl di.url⟩,
           ⟨"🔄 Download Another", .callback ("dl_" ++ url)⟩]]
       else
        [.replyMessage (tooLargeMsg femoji (pyTake di.title 80) stext)
          [⟨"🌐 Download in Browser", .openUrl di.url⟩,
           ⟨"🔄 Try Lower Quality", .callback ("dl_" ++ url)⟩]])

/-- `button_callback` (bot.py lines 505-673): dispatch on the callback
token, returning the emitted transport actions and the updated per-user
session.  `fetch` is the `get_video_info` oracle used by the `dl_`
branch. -/
def button_callback (data : String) (s : UserData)
    (fetch : String → Option Metadata)
    (resolve : String → String → String → Option DownloadInfo)
    (sendOk : Bool) : List BotAction × UserData :=
  if data == "help" then
    ([.answerCallback, .replyMessage "📖 Use /help command for detailed guide!" []], s)
  else if data == "about" then
    ([.answerCallback,
      .replyMessage "ℹ️ **About:** Advanced YouTube Downloader\n**Version:** 3.1\n\nUse /help for more info!" []], s)
  else if strStartsWith data "dl_" then
    let url := pyReplace data "dl_" ""
    let s1 := { s with current_url := some url }
    match fetch url with
    | none =>
      ([.answerCallback, .editMessage loadingInfoMsg [], .editMessage fetchFailMsg []], s1)
    | some info =>
      ([.answerCallback, .editMessage loadingInfoMsg [],
        .editMessage (chooseFormatCaption (pyTake info.title 100)) dlFormatKeyboard],
       { s1 with video_info := some info })
  else if strStartsWith data "fmt_" then
    ([.answerCallback] ++ fmt_branch data s resolve sendOk, s)
  else
    ([.answerCallback], s)

/-! ### Event-level state machine over one user's session -/

/-- One inbound event of a single user, carrying the snapshot of the
external world it is handled against: the metadata oracle, the stream
oracle and the transport-send outcome. -/
inductive BotEvent where
  | textMsg (forwarded : Bool) (text : String) (fetch : String → Option Metadata)
  | callbackEvt (data : String) (fetch : String → Option Metadata)
      (resolve : String → String → String → Option DownloadInfo) (sendOk : Bool)

/-- Session effect of one event. -/
def stepEvent (s : UserData) : BotEvent → UserData
  | .textMsg f t fetch => handle_text_state f t fetch s
  | .callbackEvt d fetch resolve sendOk => (button_callback d s fetch resolve sendOk).2

/-- Run a sequence of events against a session. -/
def runEvents (s : UserData) (es : List BotEvent) : UserData := es.foldl stepEvent s

/-- Honesty of a metadata oracle: returned metadata carries the queried
URL as its provenance ("fetched from that same URL"). -/
def FetchOk (fetch : String → Option Metadata) : Prop :=
  ∀ u m, fetch u = some m → m.src_url = u

/-- The spec's session pairing invariant as a decidable check: if
`current_url` is set, `video_info` is present and its provenance is that
same URL. -/
def invHolds (s : UserData) : Bool :=
  match s.current_url, s.video_info with
  | none, _ => true
  | some _, none => false
  | some u, some m => m.src_url == u

/-! ### Playlist Expander (`get_playlist_info`, bot.py lines 143-170) -/

/-- One flat playlist member stub as returned by the extraction service:
every field is best-effort (may be absent). -/
structure PlaylistEntry where
  title : Option String
  id : Option String
deriving DecidableEq

/-- The dictionary the extraction service returns for a flat playlist
listing: optional title, and the `entries` key may be absent. -/
structure PlaylistDict where
  title : Option String
  entries : Option (List PlaylistEntry)

/-- One member of the bot's playlist view (bot.py lines 156-160). -/
structure PlaylistVideo where
  title : String
  id : String
  url : String
deriving DecidableEq

/-- The member dictionary built for each of the first 10 entries
(bot.py lines 156-160). -/
def mkPlaylistVideo (e : PlaylistEntry) : PlaylistVideo :=
  { title := e.title.getD "Unknown",
    id := e.id.getD "",
    url := "https://www.youtube.com/watch?v=" ++ e.id.getD "" }

/-- The dictionary returned by `get_playlist_info` (bot.py lines 162-166). -/
structure PlaylistInfo where
  playlist_title : String
  videos : List PlaylistVideo
  total_count : Nat
deriving DecidableEq

/-- `get_playlist_info` (bot.py lines 143-170): `svc` is the flat-listing
extraction call; a raised exception (`.error`) or a response without an
`entries` key yields `none`; otherwise the first 10 entries are kept while
`total_count` is the length of the full entry list. -/
def get_playlist_info (svc : Except Unit PlaylistDict) : Option PlaylistInfo :=
  match svc with
  | .error _ => none
  | .ok info =>
    match info.entries with
    | none => none
    | some es =>
      some { playlist_title := info.title.getD "Playlist",
             videos := (es.take 10).map mkPlaylistVideo,
             total_count := es.length }

/-! ### Search Resolver (`search_youtube`, bot.py lines 173-190) -/

/-- One flat search stub returned by the extraction service. -/
structure SearchEntry where
  title : Option String
  id : Option String
  duration : Option Nat
deriving DecidableEq

/-- The dictionary returned by an extraction call for a search query: the
`entries` key may be absent. -/
structure SearchDict where
  entries : Option (List SearchEntry)

/-- `search_youtube(query, max_results)` (bot.py lines 173-190): builds
the `ytsearchN:query` request, returns `results.get('entries', [])` on
success, and the empty list if the service raises. -/
def search_youtube (svc : String → Except Unit SearchDict)
    (query : String) (max_results : Nat) : List SearchEntry :=
  match svc ("ytsearch" ++ toString max_results ++ ":" ++ query) with
  | .error _ => []
  | .ok results => results.entries.getD []

/-! ### Session Store (spec §4.5)

`context.user_data` is python-telegram-bot's per-user mapping: one
`UserData` dictionary per user id.  `store_put` is the write performed on
a successful metadata resolution (bot.py lines 417-418: both keys of the
user's dictionary are assigned), `store_get` the lookup. -/

/-- The keyed store: user id ↦ that user's `user_data` dictionary. -/
def SessionStore : Type := Nat → Option UserData

/-- A store with no sessions. -/
def store_empty : SessionStore := fun _ => none

/-- `put(userId, url, metadata)`: assign both session keys of that user's
dictionary (creating it when absent), leaving other users untouched. -/
def store_put (st : SessionStore) (uid : Nat) (url : String) (m : Metadata) :
    SessionStore :=
  fun u =>
    if u = uid then
      let cur := (st uid).getD initSession
      some { cur with current_url := some url, video_info := some m }
    else st u

/-- `get(userId)`: the user's session dictionary, absent if never written. -/
def store_get (st : SessionStore) (uid : Nat) : Option UserData := st uid

/-! ### Helper lemmas -/

/-- Substring containment agrees with the existence of a decomposition. -/
theorem listHasInfix_iff (pat hay : List Char) :
    listHasInfix pat hay = true ↔ ∃ s t, hay = s ++ pat ++ t := by
  induction hay with
  | nil =>
    simp only [listHasInfix, List.isEmpty_iff]
    constructor
    · intro h; exact ⟨[], [], by simp [h]⟩
    · rintro ⟨s, t, h⟩
      rcases List.append_eq_nil.mp h.symm with ⟨h1, -⟩
      rcases List.append_eq_nil.mp h1 with ⟨-, h2⟩
      exact h2
  | cons c cs ih =>
    simp only [listHasInfix, Bool.or_eq_true, List.isPrefixOf_iff_prefix, ih]
    constructor
    · rintro (⟨t, ht⟩ | ⟨s, t, ht⟩)
      · exact ⟨[], t, by simpa using ht.symm⟩
      · exact ⟨c :: s, t, by simp [ht]⟩
    · rintro ⟨s, t, ht⟩
      cases s with
      | nil => exact Or.inl ⟨t, by simpa using ht.symm⟩
      | cons d ds =>
        right
        simp only [List.cons_append] at ht
        exact ⟨ds, t, (List.cons_eq_cons.mp ht).2⟩

/-- A token starting with `fmt_` fails every earlier test of the
`button_callback` dispatch chain. -/
theorem strStartsWith_fmt_facts (data : String) (h : strStartsWith data "fmt_" = true) :
    (data == "help") = false ∧ (data == "about") = false ∧
    strStartsWith data "dl_" = false := by
  refine ⟨?_, ?_, ?_⟩
  · apply beq_eq_false_iff_ne.mpr
    intro hEq; rw [hEq] at h; exact absurd h (by decide)
  · apply beq_eq_false_iff_ne.mpr
    intro hEq; rw [hEq] at h; exact absurd h (by decide)
  · simp only [strStartsWith] at h ⊢
    rcases List.isPrefixOf_iff_prefix.mp h with ⟨t, ht⟩
    rw [Bool.eq_false_iff]
    intro h2
    rcases List.isPrefixOf_iff_prefix.mp h2 with ⟨t2, ht2⟩
    rw [← ht] at ht2
    have ht2' : 'd' :: ('l' :: ('_' :: t2)) = 'f' :: ('m' :: ('t' :: ('_' :: t))) := ht2
    injection ht2' with h1 _
    exact absurd h1 (by decide)

/-! ### Claim theorems -/

/-- C2 (counterexample): the token `"720480"` contains both `"720"` and
`"480"`, yet the negotiated quality tier is `best`, not `720`: the code's
substring tests look for `"video_720"`, `"video_480"`, etc., not for the
bare digit strings, so the claim as stated fails. -/
theorem C2_quality_tier_cex :
    strContains "720480" "720" = true ∧ strContains "720480" "480" = true ∧
    quality_of "720480" = "best" ∧ ¬ quality_of "720480" = "720" :=
  ⟨by decide, by decide, by decide, by decide⟩

/-- C2 (amended): format negotiation is a pure function of the token: the
media kind is `audio` iff the token contains the substring `"audio"`
(otherwise `video`), and the quality tier is decided by substring tests
for `"video_720"`, `"video_480"`, `"video_360"`, `"video_144"` in that
fixed priority order, defaulting to `best`; in particular any token
containing `"video_720"` — even one also containing `"video_480"` — gets
tier `720`. -/
theorem C2_amended_format_negotiation (data : String) :
    (format_type data = "audio" ↔ strContains data "audio" = true) ∧
    (format_type data = "video" ↔ strContains data "audio" = false) ∧
    (strContains data "video_720" = true → quality_of data = "720") ∧
    (strContains data "video_720" = false → strContains data "video_480" = true →
      quality_of data = "480") ∧
    (strContains data "video_720" = false → strContains data "video_480" = false →
      strContains data "video_360" = true → quality_of data = "360") ∧
    (strContains data "video_720" = false → strContains data "video_480" = false →
      strContains data "video_360" = false → strContains data "video_144" = true →
      quality_of data = "144") ∧
    (strContains data "video_720" = false → strContains data "video_480" = false →
      strContains data "video_360" = false → strContains data "video_144" = false →
      quality_of data = "best") := by
  unfold format_type quality_of
  cases hA : strContains data "audio" <;>
  cases h7 : strContains data "video_720" <;>
  cases h4 : strContains data "video_480" <;>
  cases h3 : strContains data "video_360" <;>
  cases h1 : strContains data "video_144" <;>
    simp_all

/-- Witness for C2 (amended): a token containing both `"video_720"` and
`"video_480"` resolves to tier `720`, and the audio detection iff holds at
`"fmt_audio"`. -/
theorem C2_amended_format_negotiation_witness :
    strContains "fmt_video_720_video_480" "video_720" = true ∧
    quality_of "fmt_video_720_video_480" = "720" ∧
    (format_type "fmt_audio" = "audio" ↔ strContains "fmt_audio" "audio" = true) :=
  ⟨by decide,
   (C2_amended_format_negotiation "fmt_video_720_video_480").2.2.1 (by decide),
   (C2_amended_format_negotiation "fmt_audio").1⟩

/-- C3: `is_playlist` holds exactly when the URL contains the
list-identifier marker `"list="` (whether or not a video identifier is also
present), and every recognized YouTube URL for which it holds is routed to
the playlist flow. -/
theorem C3_playlist_marker_and_routing (url : String) :
    (is_playlist url = true ↔ ∃ s t, url.data = s ++ "list=".data ++ t) ∧
    (is_youtube_url url = true → is_playlist url = true →
      routeUrl url = RouteResult.playlist url) := by
  constructor
  · exact listHasInfix_iff _ _
  · intro hY hP
    simp [routeUrl, hY, hP]

/-- Witness for C3: a URL carrying both a video identifier and the
playlist marker is recognized and routed to the playlist flow. -/
theorem C3_playlist_marker_and_routing_witness :
    is_youtube_url "https://www.youtube.com/watch?v=dQw4w9WgXcQ&list=PLabc" = true ∧
    is_playlist "https://www.youtube.com/watch?v=dQw4w9WgXcQ&list=PLabc" = true ∧
    routeUrl "https://www.youtube.com/watch?v=dQw4w9WgXcQ&list=PLabc" =
      RouteResult.playlist "https://www.youtube.com/watch?v=dQw4w9WgXcQ&list=PLabc" :=
  ⟨by decide, by decide,
   (C3_playlist_marker_and_routing _).2 (by decide) (by decide)⟩

/-- C6: a `fmt_` selection event arriving with no active URL in the
session answers with the "session expired" reply and stops: the result is
the same single edit for every metadata oracle, stream oracle and
transport outcome (so no resolution or delivery is attempted), and the
session is unchanged. -/
theorem C6_session_expired (data : String) (hfmt : strStartsWith data "fmt_" = true)
    (vinfo : Option Metadata) (fetch : String → Option Metadata)
    (resolve : String → String → String → Option DownloadInfo) (sendOk : Bool) :
    button_callback data ⟨none, vinfo⟩ fetch resolve sendOk =
      ([.answerCallback, .editMessage sessionExpiredMsg []], ⟨none, vinfo⟩) := by
  obtain ⟨h1, h2, h3⟩ := strStartsWith_fmt_facts data hfmt
  simp [button_callback, h1, h2, h3, hfmt, fmt_branch, pyFalsy]

/-- Witness for C6 at the concrete token `fmt_video_720`. -/
theorem C6_session_expired_witness :
    strStartsWith "fmt_video_720" "fmt_" = true ∧
    button_callback "fmt_video_720" ⟨none, none⟩ (fun _ => none) (fun _ _ _ => none) true =
      ([.answerCallback, .editMessage sessionExpiredMsg []], ⟨none, none⟩) :=
  ⟨by decide, C6_session_expired "fmt_video_720" (by decide) none _ _ true⟩

/-- C9: the session store is last-write-wins: after two sequential puts
for the same user with different URLs, `get` returns exactly the second
URL/metadata pair with no trace of the first, and `get` on the empty
store is absent. -/
theorem C9_last_write_wins (st : SessionStore) (uid : Nat)
    (u1 u2 : String) (m1 m2 : Metadata) (hne : u1 ≠ u2) :
    store_get (store_put (store_put st uid u1 m1) uid u2 m2) uid =
      some { current_url := some u2, video_info := some m2 } ∧
    store_get store_empty uid = none := by
  constructor
  · simp [store_get, store_put]
  · rfl

/-- Witness for C9 with two concrete distinct URLs. -/
theorem C9_last_write_wins_witness :
    store_get (store_put (store_put store_empty 7 "https://youtu.be/aaaaaaaaaaa"
        ⟨"A", 10, "", "upA", 1, "aaaaaaaaaaa", "https://youtu.be/aaaaaaaaaaa"⟩)
        7 "https://youtu.be/bbbbbbbbbbb"
        ⟨"B", 20, "", "upB", 2, "bbbbbbbbbbb", "https://youtu.be/bbbbbbbbbbb"⟩) 7 =
      some { current_url := some "https://youtu.be/bbbbbbbbbbb",
             video_info := some ⟨"B", 20, "", "upB", 2, "bbbbbbbbbbb", "https://youtu.be/bbbbbbbbbbb"⟩ } ∧
    store_get store_empty 7 = none :=
  C9_last_write_wins store_empty 7 _ _ _ _ (by decide)

/-- C7: when the flat listing comes back with `k` entries, the playlist
view keeps exactly the first `min k 10` members in service order (each
with its title and canonical watch URL) while `total_count` reports the
true length `k`. -/
theorem C7_playlist_truncation (info : PlaylistDict) (es : List PlaylistEntry)
    (h : info.entries = some es) :
    get_playlist_info (.ok info) =
      some { playlist_title := info.title.getD "Playlist",
             videos := (es.take 10).map mkPlaylistVideo,
             total_count := es.length } ∧
    ((es.take 10).map mkPlaylistVideo).length = min es.length 10 := by
  constructor
  · simp [get_playlist_info, h]
  · simp [List.length_take]
    omega

/-- A concrete 12-entry flat listing. -/
def plEntriesW : List PlaylistEntry :=
  (List.range 12).map fun i => { title := some (toString i), id := some (toString i) }

/-- A concrete playlist dictionary for the C7 witness. -/
def plDictW : PlaylistDict := { title := some "P", entries := some plEntriesW }

/-- Witness for C7: a 12-entry listing keeps 10 members and reports 12. -/
theorem C7_playlist_truncation_witness :
    plDictW.entries = some plEntriesW ∧
    (get_playlist_info (.ok plDictW) =
      some { playlist_title := plDictW.title.getD "Playlist",
             videos := (plEntriesW.take 10).map mkPlaylistVideo,
             total_count := plEntriesW.length } ∧
     ((plEntriesW.take 10).map mkPlaylistVideo).length = min plEntriesW.length 10) :=
  ⟨rfl, C7_playlist_truncation plDictW plEntriesW rfl⟩

/-- C8: `search_youtube` passes the service's ranked entries through in
service order and maps any service failure to the empty list; the bound of
at most 5 results relies on the documented service contract that a
`ytsearch5:` request yields at most 5 entries (hypothesis `hbound`). -/
theorem C8_search_results (svc : String → Except Unit SearchDict) (query : String)
    (hbound : ∀ d, svc ("ytsearch" ++ toString 5 ++ ":" ++ query) = .ok d →
      (d.entries.getD []).length ≤ 5) :
    (∀ d, svc ("ytsearch" ++ toString 5 ++ ":" ++ query) = .ok d →
      search_youtube svc query 5 = d.entries.getD [] ∧
      (search_youtube svc query 5).length ≤ 5) ∧
    (∀ e, svc ("ytsearch" ++ toString 5 ++ ":" ++ query) = .error e →
      search_youtube svc query 5 = []) := by
  constructor
  · intro d hd
    have heq : search_youtube svc query 5 = d.entries.getD [] := by
      simp [search_youtube, hd]
    exact ⟨heq, heq ▸ hbound d hd⟩
  · intro e he
    simp [search_youtube, he]

/-- A concrete search stub for the C8 witness. -/
def searchEntryW : SearchEntry :=
  { title := some "lofi", id := some "aaaaaaaaaaa", duration := some 60 }

/-- Witness for C8: a two-entry service response passes through unchanged
and a raising service yields the empty list. -/
theorem C8_search_results_witness :
    search_youtube (fun _ => .ok { entries := some [searchEntryW, searchEntryW] }) "lofi" 5 =
      [searchEntryW, searchEntryW] ∧
    search_youtube (fun _ => .error ()) "lofi" 5 = [] := by
  constructor
  · exact ((C8_search_results (fun _ => .ok { entries := some [searchEntryW, searchEntryW] })
      "lofi" (by intro d hd; injection hd with h; subst h; decide)).1 _ rfl).1
  · exact (C8_search_results (fun _ => .error ())
      "lofi" (by intro d hd; cases hd)).2 () rfl

/-- C5 (counterexample): a forwarded message whose body yields no URL is
not a silent no-op — the controller replies with an explicit error
message (bot.py line 391), contradicting the claim that such events
produce no reply at all. -/
theorem C5_forward_error_reply_cex :
    handle_text true "hello" = RouteResult.forwardNoLink ∧
    routeReply (handle_text true "hello") =
      ["❌ No YouTube link found in forwarded message!"] ∧
    ¬ routeReply (handle_text true "hello") = [] :=
  ⟨by decide, by decide, by decide⟩

/-- C5 (amended): typed text whose stripped form matches no link pattern
is silently ignored with no reply; a forwarded message whose extracted
URL is not a recognized link is likewise silently ignored; but a
forwarded message from whose body no URL can be extracted receives an
explicit "No YouTube link found" reply rather than silence. -/
theorem C5_amended_silent_ignore (t : String) :
    (is_youtube_url (pyStripStr t) = false →
      handle_text false t = RouteResult.ignored ∧
      routeReply (handle_text false t) = []) ∧
    (∀ l, findFirstUrl t.data = some l → is_youtube_url (String.mk l) = false →
      handle_text true t = RouteResult.ignored ∧
      routeReply (handle_text true t) = []) ∧
    (findFirstUrl t.data = none →
      routeReply (handle_text true t) =
        ["❌ No YouTube link found in forwarded message!"]) := by
  refine ⟨?_, ?_, ?_⟩
  · intro h
    have hr : handle_text false t = RouteResult.ignored := by
      simp [handle_text, routeUrl, h]
    exact ⟨hr, by rw [hr]; rfl⟩
  · intro l hl hnot
    have hr : handle_text true t = RouteResult.ignored := by
      simp [handle_text, hl, routeUrl, hnot]
    exact ⟨hr, by rw [hr]; rfl⟩
  · intro h
    simp [handle_text, h, routeReply]

/-- Witness for C5 (amended) at three concrete inputs: non-link typed
text, a forwarded body with a non-YouTube URL, and a forwarded body with
no URL. -/
theorem C5_amended_silent_ignore_witness :
    (is_youtube_url (pyStripStr "hello") = false ∧
      handle_text false "hello" = RouteResult.ignored ∧
      routeReply (handle_text false "hello") = []) ∧
    (findFirstUrl ("see http://example.com now").data =
        some ("http://example.com").data ∧
      is_youtube_url (String.mk ("http://example.com").data) = false ∧
      handle_text true "see http://example.com now" = RouteResult.ignored ∧
      routeReply (handle_text true "see http://example.com now") = []) ∧
    (findFirstUrl ("hello").data = none ∧
      routeReply (handle_text true "hello") =
        ["❌ No YouTube link found in forwarded message!"]) := by
  refine ⟨⟨by decide, ?_⟩, ⟨by decide, by decide, ?_, ?_⟩, ⟨by decide, ?_⟩⟩
  · exact (C5_amended_silent_ignore "hello").1 (by decide)
  · exact ((C5_amended_silent_ignore "see http://example.com now").2.1
      ("http://example.com").data (by decide) (by decide)).1
  · exact ((C5_amended_silent_ignore "see http://example.com now").2.1
      ("http://example.com").data (by decide) (by decide)).2
  · exact (C5_amended_silent_ignore "hello").2.2 (by decide)

/-! ### Predicates over transport actions, for the delivery claims -/

/-- An inline media-send attempt (`reply_audio` / `reply_video`). -/
def isInlineSend : BotAction → Bool
  | .inlineSendAudio _ _ _ => true
  | .inlineSendVideo _ _ => true
  | _ => false

/-- A fresh reply message sent to the chat. -/
def isReplyMessage : BotAction → Bool
  | .replyMessage _ _ => true
  | _ => false

/-- The generic hard-error reply of the outer exception handler
(bot.py line 673): a message starting with `❌ Error:`. -/
def isHardError : BotAction → Bool
  | .replyMessage t _ => strStartsWith t "❌ Error:"
  | .editMessage t _ => strStartsWith t "❌ Error:"
  | _ => false

/-- A string whose first character differs from the pattern's first
character is not a prefix match. -/
theorem strStartsWith_false_of_data_cons (s p : String) (c d : Char) (ds : List Char)
    (hs : ∃ cs, s.data = c :: cs) (hp : p.data = d :: ds) (h : (d == c) = false) :
    strStartsWith s p = false := by
  obtain ⟨cs, hcs⟩ := hs
  simp only [strStartsWith, hcs, hp, List.isPrefixOf_cons₂, h, Bool.false_and]

/-- The browser-link fallback reply is not the generic hard-error text
(it starts with a newline, not with `❌ Error:`). -/
theorem tooLargeMsg_not_err (femoji title stext : String) :
    strStartsWith (tooLargeMsg femoji title stext) "❌ Error:" = false :=
  strStartsWith_false_of_data_cons _ _ '\n' '❌' _ ⟨_, rfl⟩ rfl (by decide)

/-- The download-ready caption is not the generic hard-error text. -/
theorem readyCaption_not_err (femoji title qtext stext : String) :
    strStartsWith (downloadReadyCaption femoji title qtext stext) "❌ Error:" = false :=
  strStartsWith_false_of_data_cons _ _ '\n' '❌' _ ⟨_, rfl⟩ rfl (by decide)

/-- The success reply is not the generic hard-error text. -/
theorem successMsg_not_err (femoji qtext : String) :
    strStartsWith (successMsg femoji qtext) "❌ Error:" = false :=
  strStartsWith_false_of_data_cons _ _ '\n' '❌' _ ⟨_, rfl⟩ rfl (by decide)

/-- C4: when the resolved stream's inline transport send fails (for any
cause: `sendOk = false`), the `fmt_` flow makes exactly one inline send
attempt, produces exactly one terminal reply, that terminal reply is the
last action and carries the raw stream reference as a clickable open-URL
button plus a `dl_` re-selection button, and no action is the generic
hard-error reply. -/
theorem C4_delivery_fallback (data u : String) (hu : u.data.isEmpty = false)
    (vinfo : Option Metadata)
    (resolve : String → String → String → Option DownloadInfo) (di : DownloadInfo)
    (hres : resolve u (format_type data) (quality_of data) = some di) :
    ((fmt_branch data ⟨some u, vinfo⟩ resolve false).filter isInlineSend).length = 1 ∧
    ((fmt_branch data ⟨some u, vinfo⟩ resolve false).filter isReplyMessage).length = 1 ∧
    (∃ txt, (fmt_branch data ⟨some u, vinfo⟩ resolve false).getLast? =
      some (.replyMessage txt
        [⟨"🌐 Download in Browser", .openUrl di.url⟩,
         ⟨"🔄 Try Lower Quality", .callback ("dl_" ++ u)⟩])) ∧
    (fmt_branch data ⟨some u, vinfo⟩ resolve false).all (fun a => !(isHardError a)) = true := by
  have hft : pyFalsy (some u) = false := hu
  have hprep : strStartsWith preparingMsg "❌ Error:" = false := by decide
  by_cases hA : strContains data "audio" = true
  · have hres' : resolve u "audio" (quality_of data) = some di := by
      simpa [format_type, hA] using hres
    refine ⟨?_, ?_, ?_, ?_⟩
    · simp [fmt_branch, hft, hres', format_type, hA, isInlineSend, isReplyMessage]
    · simp [fmt_branch, hft, hres', format_type, hA, isInlineSend, isReplyMessage]
    · refine ⟨tooLargeMsg "🎵" (pyTake di.title 80)
          (if di.filesize = 0 then "Unknown" else format_size di.filesize), ?_⟩
      simp [fmt_branch, hft, hres', format_type, hA]
    · simp [fmt_branch, hft, hres', format_type, hA, isHardError,
        hprep, tooLargeMsg_not_err, readyCaption_not_err, successMsg_not_err]
  · have hres' : resolve u "video" (quality_of data) = some di := by
      simpa [format_type, hA] using hres
    refine ⟨?_, ?_, ?_, ?_⟩
    · simp [fmt_branch, hft, hres', format_type, hA, isInlineSend, isReplyMessage]
    · simp [fmt_branch, hft, hres', format_type, hA, isInlineSend, isReplyMessage]
    · refine ⟨tooLargeMsg "🎬" (pyTake di.title 80)
          (if di.filesize = 0 then "Unknown" else format_size di.filesize), ?_⟩
      simp [fmt_branch, hft, hres', format_type, hA]
    · simp [fmt_branch, hft, hres', format_type, hA, isHardError,
        hprep, tooLargeMsg_not_err, readyCaption_not_err, successMsg_not_err]

/-- A concrete resolved stream for the C4 witness. -/
def diW : DownloadInfo := ⟨"http://cdn.example/stream.mp4", "T", "mp4", 99⟩

/-- Witness for C4 at a concrete token, session URL and stream reference. -/
theorem C4_delivery_fallback_witness :
    ("https://youtu.be/aaaaaaaaaaa" : String).data.isEmpty = false ∧
    ((fun _ _ _ => some diW : String → String → String → Option DownloadInfo)
        "https://youtu.be/aaaaaaaaaaa" (format_type "fmt_video_720")
        (quality_of "fmt_video_720") = some diW) ∧
    (((fmt_branch "fmt_video_720" ⟨some "https://youtu.be/aaaaaaaaaaa", none⟩
        (fun _ _ _ => some diW) false).filter isInlineSend).length = 1 ∧
     ((fmt_branch "fmt_video_720" ⟨some "https://youtu.be/aaaaaaaaaaa", none⟩
        (fun _ _ _ => some diW) false).filter isReplyMessage).length = 1 ∧
     (∃ txt, (fmt_branch "fmt_video_720" ⟨some "https://youtu.be/aaaaaaaaaaa", none⟩
        (fun _ _ _ => some diW) false).getLast? =
       some (.replyMessage txt
         [⟨"🌐 Download in Browser", .openUrl diW.url⟩,
          ⟨"🔄 Try Lower Quality", .callback ("dl_" ++ "https://youtu.be/aaaaaaaaaaa")⟩])) ∧
     (fmt_branch "fmt_video_720" ⟨some "https://youtu.be/aaaaaaaaaaa", none⟩
        (fun _ _ _ => some diW) false).all (fun a => !(isHardError a)) = true) :=
  ⟨by decide, rfl,
   C4_delivery_fallback "fmt_video_720" "https://youtu.be/aaaaaaaaaaa" (by decide) none
     (fun _ _ _ => some diW) diW rfl⟩

/-! ### Suffix lemmas for the identifier-segment claim -/

/-- Every candidate produced by `multiStrip` is a suffix of one of its
inputs. -/
theorem mem_multiStrip_suffix (opts : List String) (ls : List (List Char))
    (x : List Char) (hx : x ∈ multiStrip opts ls) : ∃ y ∈ ls, x <:+ y := by
  simp only [multiStrip, List.mem_flatMap, List.mem_filterMap] at hx
  obtain ⟨y, hy, o, ho, hvo⟩ := hx
  refine ⟨y, hy, ?_⟩
  by_cases hp : o.data.isPrefixOf y = true
  · simp only [hp, if_true] at hvo
    injection hvo with hvo
    exact hvo ▸ List.drop_suffix _ _
  · simp [hp] at hvo

/-- Every candidate produced by `dotPlusQvSuffixes` is a suffix of its
input. -/
theorem mem_dotPlusQv_suffix (l x : List Char) (hx : x ∈ dotPlusQvSuffixes l) :
    x <:+ l := by
  simp only [dotPlusQvSuffixes, List.mem_filterMap, List.mem_range] at hx
  obtain ⟨i, hi, hv⟩ := hx
  by_cases hc : (decide (1 ≤ i) && (l.take i).all (fun c => !(c == '\n'))
      && "?v=".data.isPrefixOf (l.drop i)) = true
  · simp only [hc, if_true] at hv
    injection hv with hv
    exact hv ▸ List.drop_suffix _ _
  · simp [hc] at hv

/-- Every candidate produced by `group5Suffixes` is a suffix of its
input. -/
theorem mem_group5_suffix (l x : List Char) (hx : x ∈ group5Suffixes l) :
    x <:+ l := by
  simp only [group5Suffixes, List.mem_append] at hx
  rcases hx with hx | hx
  · simp only [List.mem_filterMap] at hx
    obtain ⟨o, ho, hvo⟩ := hx
    by_cases hp : o.data.isPrefixOf l = true
    · simp only [hp, if_true] at hvo
      injection hvo with hvo
      exact hvo ▸ List.drop_suffix _ _
    · simp [hp] at hvo
  · exact mem_dotPlusQv_suffix l x hx

/-- Every suffix tested by pattern 1 is a suffix of the whole input. -/
theorem mem_pat1Suffixes_suffix (s x : List Char) (hx : x ∈ pat1Suffixes s) :
    x <:+ s := by
  simp only [pat1Suffixes, List.mem_flatMap] at hx
  obtain ⟨y, hy, hxy⟩ := hx
  obtain ⟨y2, hy2, hs2⟩ := mem_multiStrip_suffix _ _ y hy
  obtain ⟨y3, hy3, hs3⟩ := mem_multiStrip_suffix _ _ y2 hy2
  obtain ⟨y4, hy4, hs4⟩ := mem_multiStrip_suffix _ _ y3 hy3
  have hys : y4 = s := by simpa using hy4
  subst hys
  exact (((mem_group5_suffix y x hxy).trans hs2).trans hs3).trans hs4

/-- Every suffix tested by pattern 2 is a suffix of the whole input. -/
theorem mem_pat2Suffixes_suffix (s x : List Char) (hx : x ∈ pat2Suffixes s) :
    x <:+ s := by
  simp only [pat2Suffixes] at hx
  obtain ⟨y2, hy2, hs2⟩ := mem_multiStrip_suffix _ _ x hx
  obtain ⟨y3, hy3, hs3⟩ := mem_multiStrip_suffix _ _ y2 hy2
  obtain ⟨y4, hy4, hs4⟩ := mem_multiStrip_suffix _ _ y3 hy3
  have hys : y4 = s := by simpa using hy4
  subst hys
  exact (hs2.trans hs3).trans hs4

/-- From an accepted suffix with 11 leading valid characters, produce the
identifier-segment decomposition of the whole URL. -/
theorem segment_of_suffix {u : String} {x : List Char} (hs : x <:+ u.data)
    (h11 : has11Valid x = true) :
    ∃ pre seg suf, u.data = pre ++ seg ++ suf ∧ seg.length = 11 ∧
      seg.all validIdChar = true := by
  obtain ⟨pre, hpre⟩ := hs
  simp only [has11Valid, Bool.and_eq_true, decide_eq_true_eq] at h11
  obtain ⟨hlen, hall⟩ := h11
  refine ⟨pre, x.take 11, x.drop 11, ?_, ?_, hall⟩
  · rw [← hpre, List.append_assoc, List.take_append_drop]
  · rw [List.length_take]
    exact Nat.min_eq_left hlen

/-- C10 (counterexample): the rejection half of the claim is false.  The
otherwise well-formed shorts URL `https://www.youtube.com/shorts/abcde`,
whose identifier segment `abcde` consists of only 5 non-delimiter
characters, is nevertheless accepted: the path-prefix group of pattern 1
is optional and may match empty, so the 11-character class consumes the
path text `shorts/abcd` itself. -/
theorem C10_short_id_accepted_cex :
    is_youtube_url "https://www.youtube.com/shorts/abcde" = true ∧
    ("https://www.youtube.com/shorts/abcde" : String).data =
      ("https://www.youtube.com/shorts/" : String).data ++ ("abcde" : String).data ∧
    ("abcde" : String).data.length = 5 ∧
    ("abcde" : String).data.all validIdChar = true :=
  ⟨by decide, by decide, by decide, by decide⟩

/-- C10 (amended): the classifier accepts a string only if it contains a
candidate identifier segment of 11 consecutive characters drawn from
outside the delimiter set `&`, `=`, `%`, `?`.  Since the path-prefix group
is optional, those 11 characters need not be the video identifier proper,
so a short-identifier URL is rejected only when the URL offers no such
run at the matched position — as in the two concrete instances below,
where a delimiter cuts the run short — and may be accepted otherwise
(see the counterexample above). -/
theorem C10_identifier_segment (u : String) :
    (is_youtube_url u = true →
      ∃ pre seg suf, u.data = pre ++ seg ++ suf ∧ seg.length = 11 ∧
        seg.all validIdChar = true) ∧
    is_youtube_url "https://www.youtube.com/watch?v=abc" = false ∧
    is_youtube_url "https://youtu.be/abcdefghij" = false := by
  refine ⟨?_, by decide, by decide⟩
  intro h
  simp only [is_youtube_url, Bool.or_eq_true, matchPat1, matchPat2,
    List.any_eq_true] at h
  rcases h with ⟨x, hx, h11⟩ | ⟨x, hx, h11⟩
  · exact segment_of_suffix (mem_pat1Suffixes_suffix _ _ hx) h11
  · exact segment_of_suffix (mem_pat2Suffixes_suffix _ _ hx) h11

/-- Witness for C10 at a concrete accepted URL. -/
theorem C10_identifier_segment_witness :
    is_youtube_url "https://youtu.be/dQw4w9WgXcQ" = true ∧
    (∃ pre seg suf, ("https://youtu.be/dQw4w9WgXcQ" : String).data = pre ++ seg ++ suf ∧
      seg.length = 11 ∧ seg.all validIdChar = true) :=
  ⟨by decide, (C10_identifier_segment "https://youtu.be/dQw4w9WgXcQ").1 (by decide)⟩

/-! ### C1: the session pairing invariant -/

/-- A metadata oracle that, for every URL, returns metadata whose
provenance is exactly that URL (an honest `get_video_info`). -/
def fetchOkOracle : String → Option Metadata :=
  fun u => some ⟨"A", 212, "", "Rick", 1, "aaaaaaaaaaa", u⟩

/-- A metadata oracle modelling a failing extraction: `get_video_info`
returns `None` for every URL. -/
def fetchFailOracle : String → Option Metadata := fun _ => none

/-- Event 1: the user types a recognized single-video link and its
metadata resolution succeeds. -/
def linkEventA : BotEvent :=
  .textMsg false "https://youtu.be/aaaaaaaaaaa" fetchOkOracle

/-- Event 2: the user presses a `dl_` button for a different video and
that metadata resolution fails. -/
def dlEventB : BotEvent :=
  .callbackEvt "dl_https://youtu.be/bbbbbbbbbbb" fetchFailOracle (fun _ _ _ => none) true

/-- C1 (violation): the pairing invariant does not hold on all reachable
sessions.  Both oracles are honest (`FetchOk`), yet after a successful
link message for video A followed by a `dl_` selection of video B whose
metadata resolution fails, the session holds `current_url = B` paired
with the metadata of A: the `dl_` branch stores the URL before resolving
(bot.py line 530) and returns on failure without clearing or updating
`video_info` (bot.py lines 535-537), producing exactly the stale pairing
the spec rules out. -/
theorem C1_stale_pair_after_failed_dl :
    FetchOk fetchOkOracle ∧ FetchOk fetchFailOracle ∧
    runEvents initSession [linkEventA, dlEventB] =
      ⟨some "https://youtu.be/bbbbbbbbbbb",
       some ⟨"A", 212, "", "Rick", 1, "aaaaaaaaaaa", "https://youtu.be/aaaaaaaaaaa"⟩⟩ ∧
    invHolds (runEvents initSession [linkEventA, dlEventB]) = false := by
  refine ⟨?_, ?_, by decide, by decide⟩
  · intro u m h
    injection h with h'
    subst h'
    rfl
  · intro u m h
    exact Option.noConfusion h
